import Mathlib

/-!
Verification development for the Competitive-Intelligence review-scraping
repository.  The Python sources under `backend/` are shallowly embedded:

* pure string/number manipulation is translated to computable Lean functions
  over `String`, `ℕ` and `ℚ` (Python floats become rationals, since every
  constant in the scoring code is a decimal literal and the claims are about
  comparisons and additivity);
* browser/DOM interaction (Playwright `query_selector`, BeautifulSoup
  `find`) is an oracle: an element is a record of functions from a CSS
  selector string to an optional result, `none` standing for "no node
  matched or the call raised" (exactly the cases the Python code treats
  identically via its blanket `except: continue`);
* the VADER analyzer is an external library, so its compound score is a
  parameter of the embedding;
* the Supabase insert is an oracle `List StoredRow → Bool` returning whether
  `insert(...).execute()` completed without raising;
* wall-clock derived fields (`scraped_at`, `processingTime`, `timestamp`,
  `requestId`) are nondeterministic and are left out of the embedded
  record shapes.
-/

namespace CompetitiveIntel

/-! ### String helpers (Python `str.lower`, substring `in`, `strip`) -/

/-- Test that `w` begins the character list `t` (helper for substring search). -/
def firstChars : List Char → List Char → Bool
  | [], _ => true
  | _ :: _, [] => false
  | a :: as, b :: bs => a == b && firstChars as bs

/-- Test that `w` occurs somewhere inside `t` (Python `w in t` on strings). -/
def subChars (w : List Char) : List Char → Bool
  | [] => firstChars w []
  | b :: bs => firstChars w (b :: bs) || subChars w bs

/-- Python substring containment `w in t`. -/
def occursIn (w t : String) : Bool := subChars w.toList t.toList

/-- Python `text.lower()`. -/
def lowerStr (s : String) : String := ⟨s.toList.map Char.toLower⟩

/-- Python `any(word in text_lower for word in words)`. -/
def anyWordIn (ws : List String) (t : String) : Bool := ws.any (fun w => occursIn w t)

/-- Whitespace strip on a character list (both ends). -/
def trimChars (cs : List Char) : List Char :=
  ((cs.dropWhile Char.isWhitespace).reverse.dropWhile Char.isWhitespace).reverse

/-- Python `s.strip()` (leading and trailing whitespace removed). -/
def stripStr (s : String) : String := ⟨trimChars s.toList⟩

/-- Playwright `text_content()` post-processing
`content = content.strip() if content else ""`: a `None` or empty text
becomes `""`, otherwise the text is stripped. -/
def trimOr (t : Option String) : String :=
  match t with
  | none => ""
  | some s => stripStr s

/-! ### Sentiment scorer (`production_scrapers.analyze_sentiment_production`) -/

/-- Keyword table from `heuristic_boost` in `production_scrapers.py`. -/
def negWords1 : List String := ["bug", "slow", "crash", "error", "broken", "terrible", "awful", "horrible"]

def negWords2 : List String := ["expensive", "costly", "overpriced", "pricey"]

def negWords3 : List String := ["difficult", "hard", "complex", "confusing"]

def posWords1 : List String := ["easy", "great", "excellent", "amazing", "perfect", "love", "fantastic"]

def posWords2 : List String := ["fast", "quick", "efficient", "smooth", "responsive"]

def posWords3 : List String := ["intuitive", "user-friendly", "simple", "straightforward"]

/-- The six keyword-category membership tests of `heuristic_boost`
(each is `any(word in text_lower for word in [...])` on the lowered text). -/
def negHit1 (text : String) : Bool := anyWordIn negWords1 (lowerStr text)

def negHit2 (text : String) : Bool := anyWordIn negWords2 (lowerStr text)

def negHit3 (text : String) : Bool := anyWordIn negWords3 (lowerStr text)

def posHit1 (text : String) : Bool := anyWordIn posWords1 (lowerStr text)

def posHit2 (text : String) : Bool := anyWordIn posWords2 (lowerStr text)

def posHit3 (text : String) : Bool := anyWordIn posWords3 (lowerStr text)

/-- Python `max(-1.0, min(1.0, score))`. -/
def clampQ (x : ℚ) : ℚ := max (-1) (min 1 x)

/-- Function `heuristic_boost(text, score)` from `production_scrapers.py` lines
377–398: sequential fixed nudges per keyword category, then one clamp. -/
def heuristic_boost (text : String) (score : ℚ) : ℚ :=
  let s1 := if negHit1 text then score - 1/5 else score
  let s2 := if negHit2 text then s1 - 1/10 else s1
  let s3 := if negHit3 text then s2 - 3/20 else s2
  let s4 := if posHit1 text then s3 + 1/5 else s3
  let s5 := if posHit2 text then s4 + 1/10 else s4
  let s6 := if posHit3 text then s5 + 3/20 else s5
  clampQ s6

/-- Total keyword adjustment of `heuristic_boost` written as a sum of the
six per-category contributions. -/
def hDelta (text : String) : ℚ :=
  (if negHit1 text then -(1/5) else 0) + (if negHit2 text then -(1/10) else 0)
    + (if negHit3 text then -(3/20) else 0) + (if posHit1 text then 1/5 else 0)
    + (if posHit2 text then 1/10 else 0) + (if posHit3 text then 3/20 else 0)

/-! ### Labeling thresholds -/

/-- Labeling rule of `IntegratedReviewScraper.analyze_sentiment` and
`_get_sentiment_label` (non-strict thresholds, `integrated_review_scraper.py`
lines 227–232 and 296–301, same in the production variant of that file). -/
def integratedLabel (compound : ℚ) : String :=
  if compound ≥ 1/20 then "positive"
  else if compound ≤ -(1/20) then "negative"
  else "neutral"

/-- Labeling rule of `analyze_sentiment_production`
(`production_scrapers.py` lines 414–419; also `direct_scrapers.py` and
`real_scrapers.py`): strict thresholds. -/
def productionLabel (adjusted : ℚ) : String :=
  if adjusted > 1/20 then "positive"
  else if adjusted < -(1/20) then "negative"
  else "neutral"

/-- Labeling rule of the multi-product aggregator
(`multi_product_sentiment.py` lines 54–59). -/
def multiProductLabel (avg : ℚ) : String :=
  if avg > 1/10 then "positive"
  else if avg < -(1/10) then "negative"
  else "neutral"

/-- The sentiment pipeline of `analyze_sentiment_production` for one review
text: the VADER compound (external analyzer) is a parameter; the function
returns the adjusted score and its label. -/
def analyzeSentimentProduction (text : String) (vaderCompound : ℚ) : ℚ × String :=
  let adjusted := heuristic_boost text vaderCompound
  (adjusted, productionLabel adjusted)

/-! ### Rating parsing — Python `re.search(r'(\d+(?:\.\d+)?)', text)` then `float` -/

/-- Numeric value of a run of ASCII digits. -/
def digitsVal (ds : List Char) : ℕ := ds.foldl (fun a c => 10 * a + (c.toNat - 48)) 0

/-- Numeric value of a matched integer part together with the optional
fractional group `(?:\.\d+)?` read from the remaining characters. -/
def parseDecVal (intPart rest : List Char) : ℚ :=
  match rest with
  | c :: r2 =>
    if c = '.' then
      let frac := r2.takeWhile Char.isDigit
      if frac.isEmpty then (digitsVal intPart : ℚ)
      else (digitsVal intPart : ℚ) + (digitsVal frac : ℚ) / (10 : ℚ) ^ frac.length
    else (digitsVal intPart : ℚ)
  | [] => (digitsVal intPart : ℚ)

/-- Value of the regex match `\d+(?:\.\d+)?` anchored at `cs`
(`cs` is assumed to start with a digit). -/
def parseDecAt (cs : List Char) : Option ℚ :=
  let intPart := cs.takeWhile Char.isDigit
  let rest := cs.dropWhile Char.isDigit
  if intPart.isEmpty then none
  else some (parseDecVal intPart rest)

/-- Scan for the first digit, then parse the decimal number there. -/
def firstDecimalAux : List Char → Option ℚ
  | [] => none
  | c :: cs => if c.isDigit then parseDecAt (c :: cs) else firstDecimalAux cs

/-- Model of `re.search(r'(\d+(?:\.\d+)?)', s)` followed by `float(match.group(1))`:
the first decimal number appearing in `s`, if any. -/
def firstDecimal (s : String) : Option ℚ := firstDecimalAux s.toList

/-! ### Review extractor (`capterra_scraper.scrape_capterra_playwright`)

A page element is a bundle of selector oracles.  `query_selector`
returning no node, or raising (swallowed by the per-selector `except:
continue`), is `none`; a matched node whose `text_content()` is `None` is
`some none`. -/

structure ElemProbes where
  qName : String → Option (Option String)
  qRating : String → Option String
  qText : String → Option (Option String)
  qTitle : String → Option (Option String)

/-- Selector lists of `scrape_capterra_playwright` (configuration data). -/
def name_selectors : List String :=
  [".typo-20.text-neutral-99.font-semibold", ".reviewer-name", ".author-name",
   ".reviewer", ".author", "[data-testid=\"reviewer-name\"]", ".user-name"]

def rating_selectors : List String :=
  ["[aria-label*=\"star\"]", ".rating", ".stars", "[data-testid=\"rating\"]",
   ".score", ".star-rating"]

def text_selectors : List String :=
  ["p", ".review-text", ".content", "[data-testid=\"review-text\"]",
   ".review-body", ".description"]

def title_selectors : List String := [".review-title", ".title", "h3", "h4", ".heading"]

def review_selectors : List String :=
  [".e1xzmg0z.c1ofrhif.typo-10.mb-6.space-y-4.p-6.lg\\:space-y-8",
   ".review-card", ".review", ".review-item", "[data-testid=\"review\"]",
   ".review-content", ".review-box", ".review-container"]

/-- Reviewer-name probe (lines 158–173): keep the current name and move to
the next selector unless the stripped text is non-empty, in which case stop. -/
def nameLoop (q : String → Option (Option String)) : List String → String → String
  | [], n => n
  | sel :: rest, n =>
    match q sel with
    | none => nameLoop q rest n
    | some t =>
      let m := trimOr t
      if m ≠ "" then m else nameLoop q rest n

/-- Rating probe (lines 175–191): first selector whose matched node's
`aria-label`-or-text contains a parsable decimal wins; otherwise the
carried default survives. -/
def ratingLoop (q : String → Option String) : List String → ℚ → ℚ
  | [], r => r
  | sel :: rest, r =>
    match q sel with
    | none => ratingLoop q rest r
    | some t =>
      match firstDecimal t with
      | some v => v
      | none => ratingLoop q rest r

/-- Content probe (lines 193–208): the `content` variable is overwritten by
every matching selector; the loop stops only when the stripped text is
non-empty and longer than 20 characters. -/
def contentLoop (q : String → Option (Option String)) : List String → String → String
  | [], c => c
  | sel :: rest, c =>
    match q sel with
    | none => contentLoop q rest c
    | some t =>
      let c2 := trimOr t
      if c2 ≠ "" ∧ c2.length > 20 then c2 else contentLoop q rest c2

/-- Title probe (lines 210–221): the loop breaks on the first selector that
matches any node, whatever its text. -/
def titleLoop (q : String → Option (Option String)) : List String → String
  | [] => ""
  | sel :: rest =>
    match q sel with
    | none => titleLoop q rest
    | some t => trimOr t

/-- Review-element search (lines 132–148): first selector returning a
non-empty node list wins; a failing selector is skipped. -/
def reviewElemsLoop {α : Type} (qAll : String → List α) : List String → List α
  | [] => []
  | sel :: rest =>
    let es := qAll sel
    if es.isEmpty then reviewElemsLoop qAll rest else es

/-- One extracted review of `scrape_capterra_playwright` (the wall-clock
fields `date`/`scraped_at` and the page `url` are outside the embedding). -/
structure Review where
  platform : String
  company : String
  reviewer_name : String
  rating : ℚ
  content : String
  title : String
deriving DecidableEq

/-- Per-element extraction of `scrape_capterra_playwright` (lines 155–239):
run the four probes, then keep the record only when
`content and len(content) > 10`. -/
def extractReview (company : String) (e : ElemProbes) : Option Review :=
  let reviewer_name := nameLoop e.qName name_selectors "Anonymous"
  let rating := ratingLoop e.qRating rating_selectors 0
  let content := contentLoop e.qText text_selectors ""
  let title := titleLoop e.qTitle title_selectors
  if content ≠ "" ∧ content.length > 10 then
    some ⟨"Capterra", company, reviewer_name, rating, content, title⟩
  else none

/-! ### Fallback extractor (`IntegratedReviewScraper._fallback_scraping`) -/

/-- BeautifulSoup view of one fallback review element:
`content_text` is `element.find('p') or element.find('div', class_='content')`
text, `aria_label` the `span[aria-label]`'s label, `name_text` the
`.reviewer-name`-or-`.author` text.  `none` means the lookup found nothing. -/
structure FbElem where
  content_text : Option String
  aria_label : Option String
  name_text : Option String

/-- Python `content = content_elem.get_text().strip() if content_elem else ""`. -/
def fbContent (e : FbElem) : String := (e.content_text.map stripStr).getD ""

/-- Fallback per-element extraction (`integrated_review_scraper.py` lines
356–391, element at 0-based index `i`): hard content gate
`if not content or len(content) < 10: continue`, then rating via the
decimal regex with default `0.0`, name with default `"Anonymous"`, and
title `f"Review {i+1}"`. -/
def fallbackExtract (company : String) (i : ℕ) (e : FbElem) : Option Review :=
  let content := fbContent e
  if content = "" ∨ content.length < 10 then none
  else
    let rating :=
      match e.aria_label with
      | none => (0 : ℚ)
      | some t => (firstDecimal t).getD 0
    let reviewer_name := (e.name_text.map stripStr).getD "Anonymous"
    some ⟨"Capterra", company, reviewer_name, rating, content, "Review " ++ toString (i + 1)⟩

/-! ### Orchestrator (`live_scraping`) and persistence

Reviews travel through `live_scraping` as Python dicts; optional keys are
`Option` fields and every `review.get(k, d)` becomes `(·.k).getD d`. -/

structure ReviewDict where
  company_name : Option String
  source : Option String
  content : Option String
  review_text : Option String
  reviewer_name : Option String
  rating : Option ℚ
  sentiment_score : Option ℚ
  sentiment_compound : Option ℚ
  pros : Option String
  cons : Option String
  pros_list : Option (List String)
  cons_list : Option (List String)
  reviewer_title : Option String
  review_date : Option String
deriving DecidableEq

/-- A review dict with every key absent. -/
def emptyDict : ReviewDict :=
  ⟨none, none, none, none, none, none, none, none, none, none, none, none, none, none⟩

/-- One row of the `sentiment_data` insert (timestamp columns, which are
`datetime.now()` at call time, are outside the embedding). -/
structure StoredRow where
  company : String
  platform : String
  content : String
  author : String
  rating : ℚ
  sentiment_score : ℚ
  sentiment_label : String
  sentiment_confidence : ℚ
  pros : List String
  cons : List String
  reviewer_role : String
  review_date : String
deriving DecidableEq

/-- Row transformation of `IntegratedReviewScraper.store_reviews_in_supabase`
(`integrated_review_scraper.py` lines 260–283). -/
def transformReview (r : ReviewDict) : StoredRow :=
  let sscore := r.sentiment_score.getD (r.sentiment_compound.getD 0)
  { company := r.company_name.getD ""
    platform := r.source.getD ""
    content := r.review_text.getD ""
    author := r.reviewer_name.getD ""
    rating := r.rating.getD 0
    sentiment_score := sscore
    sentiment_label := integratedLabel sscore
    sentiment_confidence := |sscore|
    pros := match r.pros with
      | some p => if p ≠ "" then [p] else []
      | none => []
    cons := match r.cons with
      | some c => if c ≠ "" then [c] else []
      | none => []
    reviewer_role := r.reviewer_title.getD ""
    review_date := r.review_date.getD "" }

/-- Row transformation of `ProductionReviewScraper.store_reviews_in_supabase`
(`integrated_review_scraper_production.py` lines 1062–1085): reads the
`content` key and passes `pros`/`cons` lists through. -/
def transformReviewProduction (r : ReviewDict) : StoredRow :=
  let sscore := r.sentiment_score.getD (r.sentiment_compound.getD 0)
  { company := r.company_name.getD ""
    platform := r.source.getD ""
    content := r.content.getD ""
    author := r.reviewer_name.getD ""
    rating := r.rating.getD 0
    sentiment_score := sscore
    sentiment_label := integratedLabel sscore
    sentiment_confidence := |sscore|
    pros := r.pros_list.getD []
    cons := r.cons_list.getD []
    reviewer_role := r.reviewer_title.getD ""
    review_date := r.review_date.getD "" }

/-- Method `IntegratedReviewScraper.store_reviews_in_supabase` (lines 253–292):
an empty batch short-circuits to `True`; otherwise the transformed rows are
inserted and the result is `True` unless the insert raised (`insertRes`
returns whether `insert(...).execute()` succeeded). -/
def storeReviews (insertRes : List StoredRow → Bool) (reviews : List ReviewDict) : Bool :=
  if reviews.isEmpty then true
  else insertRes (reviews.map transformReview)

/-- Method `ProductionReviewScraper.store_reviews_in_supabase` (lines 1055–1094). -/
def storeReviewsProduction (insertRes : List StoredRow → Bool) (reviews : List ReviewDict) : Bool :=
  if reviews.isEmpty then true
  else insertRes (reviews.map transformReviewProduction)

/-- Per-company aggregate of `live_scraping` (lines 478–511); the
`platforms["capterra"]` entry duplicates the totals because all reviews of
a company come from the single Capterra scrape. -/
structure CompanyResultM where
  company : String
  totalReviews : ℕ
  averageSentiment : ℚ
  averageRating : ℚ
  capterraReviews : ℕ
  capterraAvgSentiment : ℚ
  capterraAvgRating : ℚ
deriving DecidableEq

/-- The `CompanyResult` built at lines 500–511 from a non-empty review list. -/
def mkCompanyResult (company : String) (revs : List ReviewDict) : CompanyResultM :=
  let n : ℚ := revs.length
  let avgS := (revs.map (fun r => r.sentiment_score.getD 0)).sum / n
  let avgR := (revs.map (fun r => r.rating.getD 0)).sum / n
  ⟨company, revs.length, avgS, avgR, revs.length, avgS, avgR⟩

/-- Mutable run state of `live_scraping` (`all_reviews`, `company_results`,
`errors`). -/
structure RunAcc where
  allReviews : List ReviewDict
  companyResults : List CompanyResultM
  errors : List String
deriving DecidableEq

/-- Body of the per-company loop of `live_scraping` (lines 468–516).
`catalog` is the CSV-backed URL lookup (`none` when the company is absent
or its `Capterra_URL` cell is empty); `scrape` is the
`scrape_capterra_reviews_async` call, whose raising is `Except.error`.
A company with no URL is only printed about; a raising scrape appends one
error; a non-empty review list extends `all_reviews` and appends a
`CompanyResult`. -/
def companyStep (catalog : String → Option String)
    (scrape : String → String → Except String (List ReviewDict))
    (acc : RunAcc) (company : String) : RunAcc :=
  match catalog company with
  | none => acc
  | some url =>
    match scrape company url with
    | .error e =>
      { acc with errors := acc.errors ++ ["Error scraping Capterra for " ++ company ++ ": " ++ e] }
    | .ok revs =>
      if revs.isEmpty then acc
      else
        { acc with
            allReviews := acc.allReviews ++ revs
            companyResults := acc.companyResults ++ [mkCompanyResult company revs] }

/-- The whole company loop of `live_scraping`. -/
def processCompanies (catalog : String → Option String)
    (scrape : String → String → Except String (List ReviewDict))
    (acc : RunAcc) (companies : List String) : RunAcc :=
  companies.foldl (companyStep catalog scrape) acc

/-- The `ScrapingResult` as assembled at lines 535–549 (the wall-clock fields
`processingTime`/`timestamp`/`requestId` are outside the embedding). -/
structure ScrapingResultM where
  success : Bool
  totalReviews : ℕ
  companiesProcessed : ℕ
  capterraBreakdown : ℕ
  averageSentiment : ℚ
  storedInSupabase : Bool
  storedCount : ℕ
  errors : List String
  companyResults : List CompanyResultM
  message : String
deriving DecidableEq

/-- Summary construction of `live_scraping` lines 521–549: final stats from
the accumulated state and the boolean returned by the persistence step. -/
def buildScrapingResult (acc : RunAcc) (stored : Bool) (numCompanies : ℕ) : ScrapingResultM :=
  { success := true
    totalReviews := acc.allReviews.length
    companiesProcessed := numCompanies
    capterraBreakdown := (acc.allReviews.filter (fun r => r.source.getD "unknown" == "capterra")).length
    averageSentiment :=
      if acc.allReviews.length > 0 then
        (acc.allReviews.map (fun r => r.sentiment_score.getD 0)).sum / (acc.allReviews.length : ℚ)
      else 0
    storedInSupabase := stored
    storedCount := acc.allReviews.length
    errors := acc.errors
    companyResults := acc.companyResults
    message := "Scraped " ++ toString acc.allReviews.length ++ " reviews from "
      ++ toString numCompanies ++ " companies" }

/-- Tail of `live_scraping` (lines 518–549): persist the accumulated
reviews, then return the summary built from the store's boolean outcome. -/
def liveScrapingTail (insertRes : List StoredRow → Bool) (acc : RunAcc)
    (numCompanies : ℕ) : ScrapingResultM :=
  buildScrapingResult acc (storeReviews insertRes acc.allReviews) numCompanies

/-! ### Multi-product aggregator (`multi_product_sentiment.py`) -/

/-- Return shape of `calculate_overall_sentiment`. -/
structure OverallSentiment where
  score : ℚ
  label : String
  totalProducts : ℕ
  positiveProducts : ℕ
  negativeProducts : ℕ
  neutralProducts : ℕ
deriving DecidableEq

/-- Method `MultiProductSentimentAnalyzer.calculate_overall_sentiment`
(lines 34–68). -/
def calculate_overall_sentiment (ps : List ℚ) : OverallSentiment :=
  if ps.isEmpty then ⟨0, "neutral", 0, 0, 0, 0⟩
  else
    let avg := ps.sum / (ps.length : ℚ)
    ⟨avg, multiProductLabel avg, ps.length,
      (ps.filter (fun s => decide (s > 1/10))).length,
      (ps.filter (fun s => decide (s < -(1/10)))).length,
      (ps.filter (fun s => decide (-(1/10) ≤ s ∧ s ≤ 1/10))).length⟩

/-! ### Theorems -/

theorem integratedLabel_pos_iff (q : ℚ) : integratedLabel q = "positive" ↔ 1/20 ≤ q := by
  unfold integratedLabel
  split_ifs with h1 h2
  · exact ⟨fun _ => h1, fun _ => rfl⟩
  · exact ⟨fun hc => absurd hc (by decide), fun hc => absurd hc h1⟩
  · exact ⟨fun hc => absurd hc (by decide), fun hc => absurd hc h1⟩

theorem integratedLabel_neg_iff (q : ℚ) : integratedLabel q = "negative" ↔ q ≤ -(1/20) := by
  unfold integratedLabel
  split_ifs with h1 h2
  · refine ⟨fun hc => absurd hc (by decide), fun hc => absurd (le_trans h1 hc) (by norm_num)⟩
  · exact ⟨fun _ => h2, fun _ => rfl⟩
  · exact ⟨fun hc => absurd hc (by decide), fun hc => absurd hc h2⟩

theorem productionLabel_pos_iff (q : ℚ) : productionLabel q = "positive" ↔ 1/20 < q := by
  unfold productionLabel
  split_ifs with h1 h2
  · exact ⟨fun _ => h1, fun _ => rfl⟩
  · exact ⟨fun hc => absurd hc (by decide), fun hc => absurd hc h1⟩
  · exact ⟨fun hc => absurd hc (by decide), fun hc => absurd hc h1⟩

theorem productionLabel_neg_iff (q : ℚ) : productionLabel q = "negative" ↔ q < -(1/20) := by
  unfold productionLabel
  split_ifs with h1 h2
  · refine ⟨fun hc => absurd hc (by decide), fun hc => absurd (lt_trans h1 hc) (by norm_num)⟩
  · exact ⟨fun _ => h2, fun _ => rfl⟩
  · exact ⟨fun hc => absurd hc (by decide), fun hc => absurd hc h2⟩

theorem multiProductLabel_pos_iff (q : ℚ) : multiProductLabel q = "positive" ↔ 1/10 < q := by
  unfold multiProductLabel
  split_ifs with h1 h2
  · exact ⟨fun _ => h1, fun _ => rfl⟩
  · exact ⟨fun hc => absurd hc (by decide), fun hc => absurd hc h1⟩
  · exact ⟨fun hc => absurd hc (by decide), fun hc => absurd hc h1⟩

theorem multiProductLabel_neg_iff (q : ℚ) : multiProductLabel q = "negative" ↔ q < -(1/10) := by
  unfold multiProductLabel
  split_ifs with h1 h2
  · refine ⟨fun hc => absurd hc (by decide), fun hc => absurd (lt_trans h1 hc) (by norm_num)⟩
  · exact ⟨fun _ => h2, fun _ => rfl⟩
  · exact ⟨fun hc => absurd hc (by decide), fun hc => absurd hc h2⟩

/-- C1 (amended): the integrated-scraper labeling sites
(`analyze_sentiment`, `_get_sentiment_label`) use the non-strict pair —
positive iff score ≥ 0.05 (so 0.05 exactly is positive), negative iff
score ≤ −0.05 — but the production pipeline's labeling
(`analyze_sentiment_production`, also the direct/real scraper variants)
uses the strict pair (positive iff > 0.05, negative iff < −0.05), so a
score of exactly ±0.05 is neutral there; the multi-product aggregator uses
the strict ±0.1 pair.  No single threshold pair is used app-wide. -/
theorem sentiment_label_thresholds :
    (∀ q : ℚ, (integratedLabel q = "positive" ↔ 1/20 ≤ q)
      ∧ (integratedLabel q = "negative" ↔ q ≤ -(1/20))) ∧
    integratedLabel (1/20) = "positive" ∧ integratedLabel (-(1/20)) = "negative" ∧
    (∀ q : ℚ, (productionLabel q = "positive" ↔ 1/20 < q)
      ∧ (productionLabel q = "negative" ↔ q < -(1/20))) ∧
    productionLabel (1/20) = "neutral" ∧ productionLabel (-(1/20)) = "neutral" ∧
    (∀ q : ℚ, (multiProductLabel q = "positive" ↔ 1/10 < q)
      ∧ (multiProductLabel q = "negative" ↔ q < -(1/10))) := by
  refine ⟨fun q => ⟨integratedLabel_pos_iff q, integratedLabel_neg_iff q⟩,
    by norm_num [integratedLabel], by norm_num [integratedLabel],
    fun q => ⟨productionLabel_pos_iff q, productionLabel_neg_iff q⟩,
    by norm_num [productionLabel], by norm_num [productionLabel],
    fun q => ⟨multiProductLabel_pos_iff q, multiProductLabel_neg_iff q⟩⟩

/-- C1 counterexample: running the production sentiment pipeline on a
keyword-free text whose analyzer compound is exactly 0.05 yields the final
score 0.05 yet the label "neutral", where the claim demands "positive"; so
the non-strict 0.05 rule is not used at every labeling site. -/
theorem heuristic_boost_eq_clamp (t : String) (s : ℚ) :
    heuristic_boost t s = clampQ (s + hDelta t) := by
  unfold heuristic_boost hDelta
  cases h1 : negHit1 t <;> cases h2 : negHit2 t <;> cases h3 : negHit3 t <;>
    cases h4 : posHit1 t <;> cases h5 : posHit2 t <;> cases h6 : posHit3 t <;>
    simp only [h1, h2, h3, h4, h5, h6, if_true, if_false, Bool.false_eq_true,
      Bool.true_eq_false, ite_true, ite_false] <;>
    exact congrArg clampQ (by ring)

/-- C1 counterexample: running the production sentiment pipeline on a
keyword-free text whose analyzer compound is exactly 0.05 yields the final
score 0.05 yet the label "neutral", where the claim demands "positive"; so
the non-strict 0.05 rule is not used at every labeling site. -/
theorem production_label_at_threshold :
    (analyzeSentimentProduction "an average tool" (1/20)).1 = 1/20 ∧
    (analyzeSentimentProduction "an average tool" (1/20)).2 = "neutral" ∧
    "neutral" ≠ "positive" := by
  have h1 : negHit1 "an average tool" = false := by decide
  have h2 : negHit2 "an average tool" = false := by decide
  have h3 : negHit3 "an average tool" = false := by decide
  have h4 : posHit1 "an average tool" = false := by decide
  have h5 : posHit2 "an average tool" = false := by decide
  have h6 : posHit3 "an average tool" = false := by decide
  have hd : hDelta "an average tool" = 0 := by
    simp [hDelta, h1, h2, h3, h4, h5, h6]
  have hb : heuristic_boost "an average tool" (1/20) = 1/20 := by
    rw [heuristic_boost_eq_clamp, hd]
    norm_num [clampQ, min_def, max_def]
  refine ⟨?_, ?_, by decide⟩
  · simpa [analyzeSentimentProduction] using hb
  · simp only [analyzeSentimentProduction]
    rw [hb]
    norm_num [productionLabel]

/-- C3: the keyword nudges of `heuristic_boost` are additive and
order-independent — the adjusted score is the clamp of the base score plus
a sum of fixed per-category deltas — and a text matching exactly the
"bug"-category (−0.2) and the "expensive"-category (−0.1) has both deltas
subtracted relative to a text matching no category, at every base score. -/
theorem keyword_nudges_additive :
    (∀ t s, heuristic_boost t s = clampQ (s + hDelta t)) ∧
    (∀ t1 t0 s, negHit1 t1 = true → negHit2 t1 = true → negHit3 t1 = false →
      posHit1 t1 = false → posHit2 t1 = false → posHit3 t1 = false →
      negHit1 t0 = false → negHit2 t0 = false → negHit3 t0 = false →
      posHit1 t0 = false → posHit2 t0 = false → posHit3 t0 = false →
      hDelta t1 = hDelta t0 - 3/10 ∧
      heuristic_boost t1 s = clampQ (s - 3/10) ∧ heuristic_boost t0 s = clampQ s) := by
  constructor
  · exact heuristic_boost_eq_clamp
  · intro t1 t0 s a1 a2 a3 a4 a5 a6 b1 b2 b3 b4 b5 b6
    have d1 : hDelta t1 = -(3/10) := by
      simp [hDelta, a1, a2, a3, a4, a5, a6]; norm_num
    have d0 : hDelta t0 = 0 := by
      simp [hDelta, b1, b2, b3, b4, b5, b6]
    refine ⟨by rw [d1, d0]; ring, ?_, ?_⟩
    · rw [heuristic_boost_eq_clamp, d1]; exact congrArg clampQ (by ring)
    · rw [heuristic_boost_eq_clamp, d0]; exact congrArg clampQ (by ring)

/-- C3 witness: "buggy and expensive" (hitting exactly the two negative
categories) versus the keyword-free "an average tool", at base score 0.5. -/
theorem keyword_nudges_additive_witness :
    hDelta "buggy and expensive" = hDelta "an average tool" - 3/10 ∧
    heuristic_boost "buggy and expensive" (1/2) = clampQ (1/2 - 3/10) ∧
    heuristic_boost "an average tool" (1/2) = clampQ (1/2) :=
  keyword_nudges_additive.2 "buggy and expensive" "an average tool" (1/2)
    (by decide) (by decide) (by decide) (by decide) (by decide) (by decide)
    (by decide) (by decide) (by decide) (by decide) (by decide) (by decide)

theorem clampQ_bounds (x : ℚ) : -1 ≤ clampQ x ∧ clampQ x ≤ 1 :=
  ⟨le_max_left _ _, max_le (by norm_num) (min_le_left _ _)⟩

/-- C4: for every text and base analyzer score in [−1, 1] the adjusted
sentiment score stays in [−1, 1], and a base score of 0.95 on a text
matching all three positive keyword categories clamps to exactly 1.0. -/
theorem adjusted_score_clamped :
    (∀ t s, -1 ≤ s → s ≤ 1 → -1 ≤ heuristic_boost t s ∧ heuristic_boost t s ≤ 1) ∧
    heuristic_boost "easy fast intuitive" (19/20) = 1 := by
  constructor
  · intro t s _ _
    rw [heuristic_boost_eq_clamp]
    exact clampQ_bounds _
  · have h1 : negHit1 "easy fast intuitive" = false := by decide
    have h2 : negHit2 "easy fast intuitive" = false := by decide
    have h3 : negHit3 "easy fast intuitive" = false := by decide
    have h4 : posHit1 "easy fast intuitive" = true := by decide
    have h5 : posHit2 "easy fast intuitive" = true := by decide
    have h6 : posHit3 "easy fast intuitive" = true := by decide
    have hd : hDelta "easy fast intuitive" = 9/20 := by
      simp [hDelta, h1, h2, h3, h4, h5, h6]
      norm_num
    rw [heuristic_boost_eq_clamp, hd]
    norm_num [clampQ, min_def, max_def]

/-- C4 witness: clamping at a concrete in-range base score. -/
theorem adjusted_score_clamped_witness :
    -1 ≤ heuristic_boost "demo text" 0 ∧ heuristic_boost "demo text" 0 ≤ 1 :=
  adjusted_score_clamped.1 "demo text" 0 (by norm_num) (by norm_num)

/-! ### C2: minimum-content-length gate -/

/-- An element whose only probe hit is a 2-character content text. -/
def elemShort : ElemProbes :=
  ⟨fun _ => none, fun _ => none,
   fun s => if s = "p" then some (some "ok") else none,
   fun _ => none⟩

/-- An element whose only probe hit is a 25-character content text. -/
def elem25 : ElemProbes :=
  ⟨fun _ => none, fun _ => none,
   fun s => if s = "p" then some (some "absolutely wonderful tool") else none,
   fun _ => none⟩

/-- C2: a review record is produced by the Playwright extractor exactly
when the probed content is non-empty and longer than 10 characters, and by
the fallback extractor exactly when the content is non-empty and at least
10 characters; the 2-character content "ok" is dropped while a 25-character
content is kept. -/
theorem content_min_length_gate :
    (∀ company e, (extractReview company e).isSome = true ↔
      (contentLoop e.qText text_selectors "" ≠ ""
        ∧ (contentLoop e.qText text_selectors "").length > 10)) ∧
    (∀ company i e, (fallbackExtract company i e).isSome = true ↔
      ¬(fbContent e = "" ∨ (fbContent e).length < 10)) ∧
    extractReview "Acme" elemShort = none ∧
    (extractReview "Acme" elem25).map Review.content = some "absolutely wonderful tool" := by
  refine ⟨?_, ?_, ?_, ?_⟩
  · intro company e
    simp only [extractReview]
    split_ifs with h
    · simp [h]
    · simp [h]
  · intro company i e
    simp only [fallbackExtract]
    split_ifs with h
    · simp [h]
    · simp [h]
  · decide
  · decide

/-! ### C5: selector ordering precedence -/

/-- First-match search over a selector list: the result of the first
selector on which `f` yields a value, in list order. -/
def probeFirst {α β : Type} (f : α → Option β) : List α → Option β
  | [] => none
  | a :: as =>
    match f a with
    | some b => some b
    | none => probeFirst f as

/-- Usability test of the name probe: a matched node with non-empty
stripped text. -/
def nameUsable (q : String → Option (Option String)) (s : String) : Option String :=
  match q s with
  | none => none
  | some t => if trimOr t ≠ "" then some (trimOr t) else none

/-- Acceptance test of the content probe's break: a matched node with
stripped text longer than 20 characters. -/
def contentAccept (q : String → Option (Option String)) (s : String) : Option String :=
  match q s with
  | none => none
  | some t => if trimOr t ≠ "" ∧ (trimOr t).length > 20 then some (trimOr t) else none

/-- Text of the last selector that matched at all (the value the content
probe is left with when no selector's text passed the 20-character test). -/
def lastMatchText (q : String → Option (Option String)) (sels : List String) (c0 : String) : String :=
  sels.foldl (fun acc s => match q s with | none => acc | some t => trimOr t) c0

theorem reviewElemsLoop_eq {α : Type} (qAll : String → List α) :
    ∀ sels : List String,
      reviewElemsLoop qAll sels
        = (probeFirst (fun s => if (qAll s).isEmpty then none else some (qAll s)) sels).getD [] := by
  intro sels
  induction sels with
  | nil => rfl
  | cons sel rest ih =>
    by_cases h : (qAll sel).isEmpty
    · simp [reviewElemsLoop, probeFirst, h, ih]
    · simp [reviewElemsLoop, probeFirst, h]

theorem nameLoop_eq (q : String → Option (Option String)) :
    ∀ (sels : List String) (d : String),
      nameLoop q sels d = (probeFirst (nameUsable q) sels).getD d := by
  intro sels
  induction sels with
  | nil => intro d; rfl
  | cons sel rest ih =>
    intro d
    cases hq : q sel with
    | none => simp [nameLoop, probeFirst, nameUsable, hq, ih]
    | some t =>
      by_cases hm : trimOr t ≠ ""
      · simp [nameLoop, probeFirst, nameUsable, hq, hm]
      · simp [nameLoop, probeFirst, nameUsable, hq, hm, ih]

theorem ratingLoop_eq (q : String → Option String) :
    ∀ (sels : List String) (r0 : ℚ),
      ratingLoop q sels r0 = (probeFirst (fun s => (q s).bind firstDecimal) sels).getD r0 := by
  intro sels
  induction sels with
  | nil => intro r0; rfl
  | cons sel rest ih =>
    intro r0
    cases hq : q sel with
    | none => simp [ratingLoop, probeFirst, hq, ih]
    | some t =>
      cases hv : firstDecimal t with
      | none => simp [ratingLoop, probeFirst, hq, hv, ih]
      | some v => simp [ratingLoop, probeFirst, hq, hv]

theorem titleLoop_eq (q : String → Option (Option String)) :
    ∀ sels : List String,
      titleLoop q sels = (probeFirst (fun s => (q s).map trimOr) sels).getD "" := by
  intro sels
  induction sels with
  | nil => rfl
  | cons sel rest ih =>
    cases hq : q sel with
    | none => simp [titleLoop, probeFirst, hq, ih]
    | some t => simp [titleLoop, probeFirst, hq]

theorem contentLoop_eq (q : String → Option (Option String)) :
    ∀ (sels : List String) (c0 : String),
      contentLoop q sels c0
        = (probeFirst (contentAccept q) sels).getD (lastMatchText q sels c0) := by
  intro sels
  induction sels with
  | nil => intro c0; rfl
  | cons sel rest ih =>
    intro c0
    cases hq : q sel with
    | none => simp [contentLoop, probeFirst, contentAccept, lastMatchText, hq, ih]
    | some t =>
      by_cases hc : trimOr t ≠ "" ∧ (trimOr t).length > 20
      · simp [contentLoop, probeFirst, contentAccept, hq, hc]
      · have hstep : lastMatchText q (sel :: rest) c0 = lastMatchText q rest (trimOr t) := by
          simp [lastMatchText, hq]
        have hacc : contentAccept q sel = none := by
          simp [contentAccept, hq, hc]
        calc contentLoop q (sel :: rest) c0 = contentLoop q rest (trimOr t) := by
              simp [contentLoop, hq, hc]
          _ = (probeFirst (contentAccept q) rest).getD (lastMatchText q rest (trimOr t)) := ih _
          _ = (probeFirst (contentAccept q) (sel :: rest)).getD (lastMatchText q (sel :: rest) c0) := by
              simp [probeFirst, hacc, hstep]

/-- C5 (amended): each probe loop returns the result of the first selector
in list order whose match passes that probe's usability test (any non-empty
node list for the review-element search, non-empty stripped text for the
name probe, a parsable decimal for the rating probe, any matched node for
the title probe, stripped text longer than 20 characters for the content
probe), and a selector that fails or matches nothing is skipped without
aborting; however, when no selector passes the content probe's test, the
content probe is left with the text of the last matching selector — not
the first — because every matching selector overwrites the content
variable. -/
theorem probe_first_usable_match :
    (∀ (α : Type) (qAll : String → List α) (sels : List String),
      reviewElemsLoop qAll sels
        = (probeFirst (fun s => if (qAll s).isEmpty then none else some (qAll s)) sels).getD []) ∧
    (∀ q sels d, nameLoop q sels d = (probeFirst (nameUsable q) sels).getD d) ∧
    (∀ q sels r0, ratingLoop q sels r0 = (probeFirst (fun s => (q s).bind firstDecimal) sels).getD r0) ∧
    (∀ q sels, titleLoop q sels = (probeFirst (fun s => (q s).map trimOr) sels).getD "") ∧
    (∀ q sels c0, contentLoop q sels c0
        = (probeFirst (contentAccept q) sels).getD (lastMatchText q sels c0)) :=
  ⟨fun _ qAll sels => reviewElemsLoop_eq qAll sels,
   fun q sels d => nameLoop_eq q sels d,
   fun q sels r0 => ratingLoop_eq q sels r0,
   fun q sels => titleLoop_eq q sels,
   fun q sels c0 => contentLoop_eq q sels c0⟩

/-- Content oracle where the first selector ("p") matches a 16-character
text and a later selector (".review-text") matches a 35-character text. -/
def elemTwoTexts : String → Option (Option String) :=
  fun s =>
    if s = "p" then some (some "fifteen chars ok")
    else if s = ".review-text" then some (some "this is well over twenty characters")
    else none

/-- C5 counterexample: two selectors of the content probe match the same
element, yet the probe returns the second selector's text, not the first's
(the first match is only 16 characters, so the loop keeps going and the
later selector overwrites it) — refuting first-selector precedence as
stated. -/
theorem content_probe_second_selector :
    elemTwoTexts "p" = some (some "fifteen chars ok") ∧
    elemTwoTexts ".review-text" = some (some "this is well over twenty characters") ∧
    contentLoop elemTwoTexts text_selectors "" = "this is well over twenty characters" ∧
    "this is well over twenty characters" ≠ "fifteen chars ok" := by
  refine ⟨by decide, by decide, by decide, by decide⟩

/-! ### C6: persistence failure leaves the summary otherwise intact -/

/-- C6: when the final persistence step reports failure, the run summary
has `storedInSupabase = false` while every other part — errors,
companyResults, totalReviews, storedCount, and indeed the whole record up
to the stored flag — is exactly what it would have been on success, and
the summary is still returned (the function is total). -/
theorem persistence_failure_frame :
    ∀ (f : List StoredRow → Bool) (acc : RunAcc) (n : ℕ),
      storeReviews f acc.allReviews = false →
      (liveScrapingTail f acc n).storedInSupabase = false ∧
      (liveScrapingTail f acc n).errors = acc.errors ∧
      (liveScrapingTail f acc n).companyResults = acc.companyResults ∧
      (liveScrapingTail f acc n).totalReviews = acc.allReviews.length ∧
      (liveScrapingTail f acc n).storedCount = acc.allReviews.length ∧
      liveScrapingTail f acc n
        = { buildScrapingResult acc true n with storedInSupabase := false } := by
  intro f acc n hf
  refine ⟨?_, rfl, rfl, rfl, rfl, ?_⟩
  · show storeReviews f acc.allReviews = false
    exact hf
  · simp only [liveScrapingTail, buildScrapingResult, hf]

/-- One non-trivial accumulated review for the C6 witness. -/
def oneReview : ReviewDict :=
  { emptyDict with
      company_name := some "Acme"
      source := some "capterra"
      review_text := some "absolutely wonderful tool"
      sentiment_score := some (1/2)
      rating := some 4 }

/-- C6 witness: a failing insert on a one-review run still yields a
summary, with the stored flag false. -/
theorem persistence_failure_frame_witness :
    (liveScrapingTail (fun _ => false) ⟨[oneReview], [], []⟩ 1).storedInSupabase = false ∧
    (liveScrapingTail (fun _ => false) ⟨[oneReview], [], []⟩ 1).totalReviews = 1 :=
  ⟨(persistence_failure_frame (fun _ => false) ⟨[oneReview], [], []⟩ 1 rfl).1,
   (persistence_failure_frame (fun _ => false) ⟨[oneReview], [], []⟩ 1 rfl).2.2.2.1⟩

/-! ### C7: companies without a catalog URL are skipped silently -/

theorem companyStep_results (catalog : String → Option String)
    (scrape : String → String → Except String (List ReviewDict))
    (acc : RunAcc) (x : String) :
    (companyStep catalog scrape acc x).companyResults = acc.companyResults ∨
    ∃ revs, (companyStep catalog scrape acc x).companyResults
      = acc.companyResults ++ [mkCompanyResult x revs] := by
  unfold companyStep
  split
  · exact Or.inl rfl
  · split
    · exact Or.inl rfl
    · split
      · exact Or.inl rfl
      · exact Or.inr ⟨_, rfl⟩

/-- C7: a requested company whose catalog lookup yields no URL leaves the
run state untouched (no error message, no CompanyResult), the rest of the
company list is processed as if the company were absent, and every company
name appearing in the final companyResults was either already there or is
a member of the processed list. -/
theorem missing_url_company_skipped :
    ∀ (catalog : String → Option String)
      (scrape : String → String → Except String (List ReviewDict)) (c : String),
      catalog c = none →
      (∀ acc, companyStep catalog scrape acc c = acc) ∧
      (∀ acc pre post,
        processCompanies catalog scrape acc (pre ++ c :: post)
          = processCompanies catalog scrape acc (pre ++ post)) ∧
      (∀ acc l r, r ∈ (processCompanies catalog scrape acc l).companyResults →
        r ∈ acc.companyResults ∨ r.company ∈ l) := by
  intro catalog scrape c hc
  have hstep : ∀ acc, companyStep catalog scrape acc c = acc := by
    intro acc
    simp [companyStep, hc]
  refine ⟨hstep, ?_, ?_⟩
  · intro acc pre post
    simp [processCompanies, List.foldl_append, List.foldl_cons, hstep]
  · intro acc l
    induction l generalizing acc with
    | nil => intro r hr; exact Or.inl hr
    | cons x xs ih =>
      intro r hr
      have hr' : r ∈ (processCompanies catalog scrape (companyStep catalog scrape acc x) xs).companyResults := by
        simpa [processCompanies] using hr
      rcases ih (companyStep catalog scrape acc x) r hr' with h' | h'
      · rcases companyStep_results catalog scrape acc x with heq | ⟨revs, heq⟩
        · rw [heq] at h'
          exact Or.inl h'
        · rw [heq] at h'
          rcases List.mem_append.1 h' with h'' | h''
          · exact Or.inl h''
          · have hrx : r = mkCompanyResult x revs := by simpa using h''
            refine Or.inr ?_
            rw [hrx]
            exact List.mem_cons_self x xs
      · exact Or.inr (List.mem_cons_of_mem x h')

/-- C7 witness: "Unknown Co" with an empty catalog is a no-op step. -/
theorem missing_url_company_skipped_witness :
    companyStep (fun _ => none) (fun _ _ => Except.ok []) ⟨[], [], []⟩ "Unknown Co" = ⟨[], [], []⟩ :=
  (missing_url_company_skipped (fun _ => none) (fun _ _ => Except.ok []) "Unknown Co" rfl).1 ⟨[], [], []⟩

/-! ### C8: extracted ratings -/

theorem parseDecVal_nonneg (intPart rest : List Char) : 0 ≤ parseDecVal intPart rest := by
  unfold parseDecVal
  split <;> (try split_ifs) <;> positivity

theorem parseDecAt_nonneg (cs : List Char) (v : ℚ) (h : parseDecAt cs = some v) : 0 ≤ v := by
  simp only [parseDecAt] at h
  split_ifs at h with hemp
  obtain rfl := Option.some.inj h
  exact parseDecVal_nonneg _ _

theorem firstDecimal_nonneg (s : String) (v : ℚ) (h : firstDecimal s = some v) : 0 ≤ v := by
  unfold firstDecimal at h
  revert h
  generalize s.toList = cs
  induction cs with
  | nil => intro h; simp [firstDecimalAux] at h
  | cons c cs ih =>
    intro h
    unfold firstDecimalAux at h
    split_ifs at h with hd
    · exact parseDecAt_nonneg _ _ h
    · exact ih h

theorem ratingLoop_nonneg (q : String → Option String) :
    ∀ (sels : List String) (r0 : ℚ), 0 ≤ r0 → 0 ≤ ratingLoop q sels r0 := by
  intro sels
  induction sels with
  | nil => intro r0 h0; exact h0
  | cons sel rest ih =>
    intro r0 h0
    cases hq : q sel with
    | none => simpa [ratingLoop, hq] using ih r0 h0
    | some t =>
      cases hv : firstDecimal t with
      | none => simpa [ratingLoop, hq, hv] using ih r0 h0
      | some v => simpa [ratingLoop, hq, hv] using firstDecimal_nonneg t v hv

/-- C8 (amended): every extracted rating is non-negative (the regex only
parses unsigned decimals) and defaults to 0.0 when no rating selector's
text contains a parsable number — but no upper bound of 5.0 is enforced
anywhere, so ratings above 5.0 can be produced (see the counterexample). -/
theorem rating_nonneg_and_default :
    (∀ s v, firstDecimal s = some v → 0 ≤ v) ∧
    (∀ q sels r0, 0 ≤ r0 → 0 ≤ ratingLoop q sels r0) ∧
    (∀ company e r, extractReview company e = some r → 0 ≤ r.rating) ∧
    (∀ company i e r, fallbackExtract company i e = some r → 0 ≤ r.rating) ∧
    (∀ q sels r0, (∀ s, s ∈ sels → (q s).bind firstDecimal = none) →
      ratingLoop q sels r0 = r0) := by
  refine ⟨firstDecimal_nonneg, ratingLoop_nonneg, ?_, ?_, ?_⟩
  · intro company e r h
    simp only [extractReview] at h
    split_ifs at h with hg
    obtain rfl := Option.some.inj h
    exact ratingLoop_nonneg e.qRating rating_selectors 0 le_rfl
  · intro company i e r h
    simp only [fallbackExtract] at h
    split_ifs at h with hg
    obtain rfl := Option.some.inj h
    cases ha : e.aria_label with
    | none => simp [ha]
    | some t =>
      cases hv : firstDecimal t with
      | none => simp [ha, hv]
      | some v => simpa [ha, hv] using firstDecimal_nonneg t v hv
  · intro q sels
    induction sels with
    | nil => intro r0 _; rfl
    | cons sel rest ih =>
      intro r0 hall
      have hsel : (q sel).bind firstDecimal = none := hall sel (List.mem_cons_self _ _)
      have hrec := ih r0 (fun s hs => hall s (List.mem_cons_of_mem _ hs))
      cases hq : q sel with
      | none => simpa [ratingLoop, hq] using hrec
      | some t =>
        have hfd : firstDecimal t = none := by simpa [hq] using hsel
        simpa [ratingLoop, hq, hfd] using hrec

/-- C8 witness: with no rating selector matching, the default 0.0 is
non-negative. -/
theorem rating_nonneg_and_default_witness :
    0 ≤ ratingLoop (fun _ => none) rating_selectors 0 :=
  rating_nonneg_and_default.2.1 (fun _ => none) rating_selectors 0 le_rfl

/-- An element whose star `aria-label` reads "10 stars" and whose content
passes the length gate. -/
def elemBigRating : ElemProbes :=
  ⟨fun _ => none,
   fun s => if s = "[aria-label*=\"star\"]" then some "10 stars" else none,
   fun s => if s = "p" then some (some "absolutely wonderful tool") else none,
   fun _ => none⟩

/-- C8 counterexample: a produced ReviewRecord carries rating 10.0, outside
the claimed 0.0–5.0 range — the extractor parses the first decimal of the
matched text with no upper-bound check. -/
theorem rating_exceeds_five :
    (extractReview "Acme" elemBigRating).map Review.rating = some ((10 : ℕ) : ℚ) ∧
    ¬(((10 : ℕ) : ℚ) ≤ 5) := by
  constructor
  · decide
  · norm_num

/-! ### C9: empty review sets average to zero -/

/-- C9: a run whose collected review list is empty reports
`averageSentiment = 0` (no division is attempted), and the multi-product
aggregator on an empty product-sentiment list returns score 0.0 with label
"neutral". -/
theorem empty_run_average_zero :
    (∀ (crs : List CompanyResultM) (errs : List String) (stored : Bool) (n : ℕ),
      (buildScrapingResult ⟨[], crs, errs⟩ stored n).averageSentiment = 0) ∧
    (calculate_overall_sentiment []).score = 0 ∧
    (calculate_overall_sentiment []).label = "neutral" :=
  ⟨fun _ _ _ _ => rfl, rfl, rfl⟩

/-! ### C10: empty persistence batch reports success -/

/-- C10: storing an empty review list returns True for every insert oracle
(so no insert is attempted), in both scraper variants, and a run that
collected zero reviews reports `storedInSupabase = true` with
`storedCount = 0`. -/
theorem empty_store_returns_true :
    (∀ insertRes, storeReviews insertRes [] = true) ∧
    (∀ insertRes, storeReviewsProduction insertRes [] = true) ∧
    (∀ insertRes (crs : List CompanyResultM) (errs : List String) (n : ℕ),
      (liveScrapingTail insertRes ⟨[], crs, errs⟩ n).storedInSupabase = true ∧
      (liveScrapingTail insertRes ⟨[], crs, errs⟩ n).storedCount = 0) :=
  ⟨fun _ => rfl, fun _ => rfl, fun _ _ _ _ => ⟨rfl, rfl⟩⟩

end CompetitiveIntel
